import Mathlib

/-!
Verification of the NTLMRawUnHide.py byte-stream scanner and NTLMv2 hash
assembler (`searchCaptureFile` and its helpers) against its specification.

The embedding models Python primitives faithfully:
  * `pyClamp`/`pySliceI` model Python slice-index clamping (`b[a:c]`);
  * `pyFindI` models `bytes.find(needle, start, end)` (lowest match or -1);
  * `utf8Decode`/`decode_string` model strict `bytes.decode('UTF-8')`
    followed by `.replace('\x00', '')`, with a decode failure surfacing as
    a `UnicodeDecodeError` value;
  * the undefined name `output` at the zero-domain `writeOutfile` call site
    surfaces as a `NameError` value;
  * one iteration of the `while offset != -1` loop is `scanStep`, and a
    bounded run of the loop is `scanAux`/`scanRun` (fuel-indexed, since the
    loop does not always terminate).
-/

/-- Python errors the scan can raise: `UnicodeDecodeError` from strict
`bytes.decode('UTF-8')`, and the `NameError` from the undefined variable
`output` in the zero-domain-length output branch. -/
inductive PyErr where
  | unicodeDecodeError
  | nameError
deriving DecidableEq

/-- Python index clamping for slices and `find`: a negative index counts from
the end (clamped at 0), a large index is clamped to the length. -/
def pyClamp (n : Nat) (i : Int) : Nat :=
  if i < 0 then (i + n).toNat else min i.toNat n

/-- Python byte-string slice `buf[a:b]` with full clamping semantics. -/
def pySliceI (buf : List Nat) (a b : Int) : List Nat :=
  (buf.drop (pyClamp buf.length a)).take (pyClamp buf.length b - pyClamp buf.length a)

/-- Does `needle` occur in `buf` at absolute position `i`? -/
def matchAt (buf needle : List Nat) (i : Nat) : Bool :=
  (buf.drop i).take needle.length == needle

/-- `bytes.find` returns the found index, or -1 for no match. -/
def optToFind (o : Option Nat) : Int :=
  match o with
  | some i => (i : Int)
  | none => -1

/-- Python `buf.find(needle, a, b)`: the lowest absolute index `i` with
`a ≤ i`, `i + len(needle) ≤ b` (after clamping) and a match at `i`, else -1. -/
def pyFindI (buf needle : List Nat) (a b : Int) : Int :=
  optToFind ((List.range' (pyClamp buf.length a)
      (pyClamp buf.length b + 1 - pyClamp buf.length a)).find?
    (fun i => decide (i + needle.length ≤ pyClamp buf.length b) && matchAt buf needle i))

/-- `decode_int`: `int.from_bytes(byte_string, 'little')`. -/
def decode_int (bs : List Nat) : Nat :=
  bs.foldr (fun b acc => b + 256 * acc) 0

/-- Is `b` a UTF-8 continuation byte (0x80..0xBF)? -/
def isCont (b : Nat) : Bool :=
  decide (0x80 ≤ b) && decide (b ≤ 0xbf)

/-- Allowed second byte of a 3-byte UTF-8 sequence headed by `b`
(rejecting overlong forms and surrogates, as Python's strict decoder does). -/
def cont3ok (b c1 : Nat) : Bool :=
  if b = 0xe0 then decide (0xa0 ≤ c1) && decide (c1 ≤ 0xbf)
  else if b = 0xed then decide (0x80 ≤ c1) && decide (c1 ≤ 0x9f)
  else isCont c1

/-- Allowed second byte of a 4-byte UTF-8 sequence headed by `b`
(rejecting overlong forms and code points above U+10FFFF). -/
def cont4ok (b c1 : Nat) : Bool :=
  if b = 0xf0 then decide (0x90 ≤ c1) && decide (c1 ≤ 0xbf)
  else if b = 0xf4 then decide (0x80 ≤ c1) && decide (c1 ≤ 0x8f)
  else isCont c1

/-- Prepend a decoded code point to a successful suffix decode. -/
def mapCons (c : Nat) (o : Option (List Nat)) : Option (List Nat) :=
  match o with
  | some l => some (c :: l)
  | none => none

/-- Strict UTF-8 decoding (RFC 3629, as Python's `bytes.decode('UTF-8')`):
byte list to code-point list, `none` on any invalid sequence. The fuel is
one unit per decoded character; `utf8Decode` supplies the list length. -/
def utf8DecodeAux : Nat → List Nat → Option (List Nat)
  | _, [] => some []
  | 0, _ :: _ => none
  | fuel + 1, b :: rest =>
    if b < 0x80 then mapCons b (utf8DecodeAux fuel rest)
    else if b < 0xc2 then none
    else if b ≤ 0xdf then
      match rest with
      | c1 :: r =>
        if isCont c1 then
          mapCons ((b - 0xc0) * 0x40 + (c1 - 0x80)) (utf8DecodeAux fuel r)
        else none
      | [] => none
    else if b ≤ 0xef then
      match rest with
      | c1 :: c2 :: r =>
        if cont3ok b c1 && isCont c2 then
          mapCons ((b - 0xe0) * 0x1000 + (c1 - 0x80) * 0x40 + (c2 - 0x80))
            (utf8DecodeAux fuel r)
        else none
      | _ => none
    else if b ≤ 0xf4 then
      match rest with
      | c1 :: c2 :: c3 :: r =>
        if cont4ok b c1 && isCont c2 && isCont c3 then
          mapCons ((b - 0xf0) * 0x40000 + (c1 - 0x80) * 0x1000 + (c2 - 0x80) * 0x40
              + (c3 - 0x80))
            (utf8DecodeAux fuel r)
        else none
      | _ => none
    else none

/-- Strict UTF-8 decoding of a byte list to its code points. -/
def utf8Decode (bs : List Nat) : Option (List Nat) :=
  utf8DecodeAux bs.length bs

/-- `decode_string(byte_string)`: `byte_string.decode('UTF-8').replace('\x00', '')`.
The strict decode raises `UnicodeDecodeError` on invalid UTF-8. -/
def decode_string (bs : List Nat) : Except PyErr String :=
  match utf8Decode bs with
  | some cps => .ok (String.mk ((cps.filter (fun c => c ≠ 0)).map Char.ofNat))
  | none => .error .unicodeDecodeError

/-- One lowercase hex digit. -/
def hexDigit (n : Nat) : Char :=
  if n < 10 then Char.ofNat (48 + n) else Char.ofNat (87 + n)

/-- One byte as two lowercase hex digits. -/
def hexByte (b : Nat) : String :=
  String.mk [hexDigit (b / 16 % 16), hexDigit (b % 16)]

/-- Python `bytes.hex()`: two lowercase hex digits per byte. -/
def hexStr (bs : List Nat) : String :=
  bs.foldl (fun s b => s ++ hexByte b) ""

/-- The 8-byte NTLMSSP signature `NTLMSSP\x00`. -/
def ntlmssp_sig : List Nat := [0x4e, 0x54, 0x4c, 0x4d, 0x53, 0x53, 0x50, 0x00]

/-- Signature plus message type 1 (Negotiation). -/
def ntlmssp_type_1 : List Nat := ntlmssp_sig ++ [0x01, 0x00, 0x00, 0x00]

/-- Signature plus message type 2 (Challenge). -/
def ntlmssp_type_2 : List Nat := ntlmssp_sig ++ [0x02, 0x00, 0x00, 0x00]

/-- Signature plus message type 3 (Authentication). -/
def ntlmssp_type_3 : List Nat := ntlmssp_sig ++ [0x03, 0x00, 0x00, 0x00]

/-- The message-type check `readbuff.find(needle, offset, offset + len(needle)) > -1`. -/
def isTypeAt (buf needle : List Nat) (off : Int) : Bool :=
  decide (pyFindI buf needle off (off + (needle.length : Int)) > -1)

/-- One search round: advance past the signature just found unless the
offset is 0 ("start of file"), then `readbuff.find(ntlmssp_sig, offset)`. -/
def nextOffset (buf : List Nat) (off : Int) : Int :=
  pyFindI buf ntlmssp_sig
    (if off ≠ 0 then off + (ntlmssp_sig.length : Int) else off)
    (buf.length : Int)

/-- `domain_length`: 2 bytes little-endian at message offset +28. -/
def domain_length (buf : List Nat) (off : Int) : Nat :=
  decode_int (pySliceI buf (off + 28) (off + 28 + 2))

/-- `domain_offset`: 4 bytes little-endian at message offset +32. -/
def domain_offset (buf : List Nat) (off : Int) : Nat :=
  decode_int (pySliceI buf (off + 28 + 2 + 2) (off + 28 + 2 + 2 + 4))

/-- The domain field bytes, addressed relative to the message start. -/
def domainBytes (buf : List Nat) (off : Int) : List Nat :=
  pySliceI buf (off + (domain_offset buf off : Int))
    (off + (domain_offset buf off : Int) + (domain_length buf off : Int))

/-- `username_length`: 2 bytes little-endian at message offset +36. -/
def username_length (buf : List Nat) (off : Int) : Nat :=
  decode_int (pySliceI buf (off + 36) (off + 36 + 2))

/-- `username_offset`: 4 bytes little-endian at message offset +40. -/
def username_offset (buf : List Nat) (off : Int) : Nat :=
  decode_int (pySliceI buf (off + 36 + 2 + 2) (off + 36 + 2 + 2 + 4))

/-- The username field bytes, addressed relative to the message start. -/
def usernameBytes (buf : List Nat) (off : Int) : List Nat :=
  pySliceI buf (off + (username_offset buf off : Int))
    (off + (username_offset buf off : Int) + (username_length buf off : Int))

/-- `workstation_length`: 2 bytes little-endian at message offset +44. -/
def workstation_length (buf : List Nat) (off : Int) : Nat :=
  decode_int (pySliceI buf (off + 44) (off + 44 + 2))

/-- `workstation_offset`: 4 bytes little-endian at message offset +48. -/
def workstation_offset (buf : List Nat) (off : Int) : Nat :=
  decode_int (pySliceI buf (off + 44 + 2 + 2) (off + 44 + 2 + 2 + 4))

/-- The workstation field bytes, addressed relative to the message start. -/
def workstationBytes (buf : List Nat) (off : Int) : List Nat :=
  pySliceI buf (off + (workstation_offset buf off : Int))
    (off + (workstation_offset buf off : Int) + (workstation_length buf off : Int))

/-- `ntlm_length`: 2 bytes little-endian at message offset +20. -/
def ntlm_length (buf : List Nat) (off : Int) : Nat :=
  decode_int (pySliceI buf (off + 20) (off + 20 + 2))

/-- `ntlm_offset`: 4 bytes little-endian at message offset +24. -/
def ntlm_offset (buf : List Nat) (off : Int) : Nat :=
  decode_int (pySliceI buf (off + 20 + 2 + 2) (off + 20 + 2 + 2 + 4))

/-- `ntproofstr`: the 16 bytes starting at the NTLM response offset
(unconditionally 16, not bounded by `ntlm_length`). -/
def ntproofstr (buf : List Nat) (off : Int) : List Nat :=
  pySliceI buf (off + (ntlm_offset buf off : Int))
    (off + (ntlm_offset buf off : Int) + 16)

/-- `ntlmv2_response`: the response blob after its first 16 bytes, up to the
declared `ntlm_length`. -/
def ntlmv2_response (buf : List Nat) (off : Int) : List Nat :=
  pySliceI buf (off + (ntlm_offset buf off : Int) + 16)
    (off + (ntlm_offset buf off : Int) + (ntlm_length buf off : Int))

/-- A diagnostic `print` of a decoded field, executed when not quiet: `none`
when it succeeds or is skipped, the raised error otherwise. -/
def tryPrintDecode (quiet : Bool) (bs : List Nat) : Option PyErr :=
  if quiet then none
  else
    match decode_string bs with
    | .ok _ => none
    | .error e => some e

/-- The zero-domain hash line `hash_out` (`USERNAME::WORKSTATION:...`). -/
def hash_out_nodomain (buf : List Nat) (off : Int) (c : List Nat) (u w : String) : String :=
  u ++ "::" ++ w ++ ":" ++ hexStr c ++ ":" ++ hexStr (ntproofstr buf off)
    ++ ":" ++ hexStr (ntlmv2_response buf off)

/-- The nonzero-domain hash line `hash_out` (`DOMAIN\USERNAME::WORKSTATION:...`). -/
def hash_out_domain (buf : List Nat) (off : Int) (c : List Nat) (d u w : String) : String :=
  d ++ "\\" ++ u ++ "::" ++ w ++ ":" ++ hexStr c ++ ":" ++ hexStr (ntproofstr buf off)
    ++ ":" ++ hexStr (ntlmv2_response buf off)

/-- Output of the zero-domain branch: the line goes to standard output, then
`writeOutfile(output, hash_out)` is reached when an output file is
configured — and `output` is an undefined name, so that raises `NameError`. -/
def emitNoDomain (outfile : String) (line : String) :
    Except (PyErr × List String) (List String × List String) :=
  if outfile ≠ "" then .error (.nameError, [line]) else .ok ([line], [])

/-- Output of the nonzero-domain branch: the line goes to standard output and
is appended (with a newline) to the output file when one is configured. -/
def emitDomain (outfile : String) (line : String) :
    Except (PyErr × List String) (List String × List String) :=
  if outfile ≠ "" then .ok ([line], [line ++ "\n"]) else .ok ([line], [])

/-- The "Prepare NTLMv2 Hash for output" block, reached with the pending
server challenge `c`: a zero `ntlm_length` is a NULL session (nothing
emitted); otherwise the hash line is assembled with or without the domain
segment according to `domain_length`. -/
def assembleHash (buf : List Nat) (outfile : String) (off : Int) (c : List Nat) :
    Except (PyErr × List String) (List String × List String) :=
  if ntlm_length buf off = 0 then .ok ([], [])
  else if domain_length buf off = 0 then
    match decode_string (usernameBytes buf off) with
    | .error e => .error (e, [])
    | .ok u =>
      match decode_string (workstationBytes buf off) with
      | .error e => .error (e, [])
      | .ok w => emitNoDomain outfile (hash_out_nodomain buf off c u w)
  else
    match decode_string (domainBytes buf off) with
    | .error e => .error (e, [])
    | .ok d =>
      match decode_string (usernameBytes buf off) with
      | .error e => .error (e, [])
      | .ok u =>
        match decode_string (workstationBytes buf off) with
        | .error e => .error (e, [])
        | .ok w => emitDomain outfile (hash_out_domain buf off c d u w)

/-- The Type 3 (Authentication) block of the loop body: field decoding,
diagnostic prints, and the hash-assembly policy. Returns the hash lines
printed to standard output and the lines appended to the output file, or
the raised error together with the lines already printed before it. -/
def type3Step (buf : List Nat) (quiet : Bool) (outfile : String) (off : Int)
    (ch : Option (List Nat)) : Except (PyErr × List String) (List String × List String) :=
  match tryPrintDecode quiet (domainBytes buf off) with
  | some e => .error (e, [])
  | none =>
    match tryPrintDecode quiet (usernameBytes buf off) with
    | some e => .error (e, [])
    | none =>
      match tryPrintDecode quiet (workstationBytes buf off) with
      | some e => .error (e, [])
      | none =>
        match ch with
        | none => .ok ([], [])
        | some c => assembleHash buf outfile off c

/-- The scan loop's state: the current search offset, the pending server
challenge, the signature occurrences reported so far, the hash lines printed
to standard output, and the lines appended to the output file. -/
structure ScanState where
  offset : Int
  server_challenge : Option (List Nat)
  occs : List Int
  records : List String
  outlines : List String
deriving DecidableEq

/-- The state carried by either outcome of one loop iteration. -/
def stateOf (r : Except (PyErr × ScanState) ScanState) : ScanState :=
  match r with
  | .ok s => s
  | .error (_, s) => s

/-- The server challenge after the iteration's Type 2 check (the
`server_challenge` variable): a Type 2 occurrence at the found offset
overwrites it with the 8 bytes at that offset + 24. -/
def chAfterT2 (buf : List Nat) (st : ScanState) : Option (List Nat) :=
  if isTypeAt buf ntlmssp_type_2 (nextOffset buf st.offset) then
    some (pySliceI buf (nextOffset buf st.offset + 24) (nextOffset buf st.offset + 32))
  else st.server_challenge

/-- The occurrence list after the iteration's find: the found offset is
appended unless the find failed. -/
def occsAfter (buf : List Nat) (st : ScanState) : List Int :=
  if nextOffset buf st.offset = -1 then st.occs
  else st.occs ++ [nextOffset buf st.offset]

/-- One iteration of `while offset != -1`: advance-and-find, then the
Type 2 challenge capture and the Type 3 decode-and-assemble block. -/
def scanStep (buf : List Nat) (quiet : Bool) (outfile : String) (st : ScanState) :
    Except (PyErr × ScanState) ScanState :=
  if isTypeAt buf ntlmssp_type_3 (nextOffset buf st.offset) then
    match type3Step buf quiet outfile (nextOffset buf st.offset) (chAfterT2 buf st) with
    | .error (e, printed) =>
      .error (e, ⟨nextOffset buf st.offset, chAfterT2 buf st, occsAfter buf st,
        st.records ++ printed, st.outlines⟩)
    | .ok (recs, outs) =>
      .ok ⟨nextOffset buf st.offset, none, occsAfter buf st,
        st.records ++ recs, st.outlines ++ outs⟩
  else
    .ok ⟨nextOffset buf st.offset, chAfterT2 buf st, occsAfter buf st,
      st.records, st.outlines⟩

/-- An observed run of the scan loop: finished (`offset` reached -1),
aborted by a Python error, or still running when the fuel ran out. -/
inductive Outcome where
  | done (s : ScanState)
  | crashed (e : PyErr) (s : ScanState)
  | outOfFuel (s : ScanState)
deriving DecidableEq

/-- Run up to `fuel` iterations of the scan loop from state `st`. -/
def scanAux (buf : List Nat) (quiet : Bool) (outfile : String) :
    Nat → ScanState → Outcome
  | 0, st => .outOfFuel st
  | n + 1, st =>
    if st.offset = -1 then .done st
    else
      match scanStep buf quiet outfile st with
      | .error (e, s) => .crashed e s
      | .ok s => scanAux buf quiet outfile n s

/-- The loop's entry state for a fresh pass (`offset = 0`, no pending
challenge, nothing yet reported or written). -/
def initState : ScanState := ⟨0, none, [], [], []⟩

/-- A bounded run of one full scan pass of `searchCaptureFile` over `buf`. -/
def scanRun (buf : List Nat) (quiet : Bool) (outfile : String) (fuel : Nat) : Outcome :=
  scanAux buf quiet outfile fuel initState

/-! ### Concrete buffers used by the claims -/

/-- A Type 2 (Challenge) message with server challenge `01..08` at its
offset +24 (32 bytes). -/
def type2msg : List Nat :=
  ntlmssp_sig ++ [2, 0, 0, 0] ++ List.replicate 12 0 ++ [1, 2, 3, 4, 5, 6, 7, 8]

/-- A Type 3 (Authentication) message (90 bytes): domain length 0, username
`"bob"` UTF-16LE at +52, workstation `"WS1"` UTF-16LE at +58, NTLM response
of declared length 26 at +64 (16 bytes `AA` then 10 bytes `BB`). -/
def type3msg : List Nat :=
  ntlmssp_sig ++ [3, 0, 0, 0] ++ List.replicate 8 0
    ++ [26, 0, 26, 0, 64, 0, 0, 0]
    ++ [0, 0, 0, 0, 0, 0, 0, 0]
    ++ [6, 0, 6, 0, 52, 0, 0, 0]
    ++ [6, 0, 6, 0, 58, 0, 0, 0]
    ++ [0x62, 0, 0x6f, 0, 0x62, 0]
    ++ [0x57, 0, 0x53, 0, 0x31, 0]
    ++ List.replicate 16 0xaa ++ List.replicate 10 0xbb

/-- The specification's concrete scenario buffer: the Type 2 message at
offset 0, the Type 3 message at offset 100 (190 bytes). -/
def specBuf : List Nat := type2msg ++ List.replicate 68 0 ++ type3msg

/-- The same scenario shifted one byte: Type 2 at offset 1, Type 3 at
offset 101. -/
def specBufShifted : List Nat := 0 :: specBuf

/-- The hash record the specification's scenario describes. -/
def specRecord : String :=
  "bob::WS1:0102030405060708:aaaaaaaaaaaaaaaaaaaaaaaaaaaaaaaa:bbbbbbbbbbbbbbbbbbbb"

/-- `type3msg` with a nonzero domain: domain length 6, `"DOM"` UTF-16LE at
+90 (96 bytes). -/
def type3msgD : List Nat :=
  ntlmssp_sig ++ [3, 0, 0, 0] ++ List.replicate 8 0
    ++ [26, 0, 26, 0, 64, 0, 0, 0]
    ++ [6, 0, 6, 0, 90, 0, 0, 0]
    ++ [6, 0, 6, 0, 52, 0, 0, 0]
    ++ [6, 0, 6, 0, 58, 0, 0, 0]
    ++ [0x62, 0, 0x6f, 0, 0x62, 0]
    ++ [0x57, 0, 0x53, 0, 0x31, 0]
    ++ List.replicate 16 0xaa ++ List.replicate 10 0xbb
    ++ [0x44, 0, 0x4f, 0, 0x4d, 0]

/-- Shifted scenario with the nonzero-domain Type 3 message at offset 101. -/
def domainBuf : List Nat := 0 :: (type2msg ++ List.replicate 68 0 ++ type3msgD)

/-- The hash record for the nonzero-domain scenario. -/
def domainRecord : String :=
  "DOM\\bob::WS1:0102030405060708:aaaaaaaaaaaaaaaaaaaaaaaaaaaaaaaa:bbbbbbbbbbbbbbbbbbbb"

/-- A Type 3 message at offset 1 whose domain field is the single byte
`0xFF`, which is not valid UTF-8 (domain length 1, domain offset 40). -/
def badDomainBuf : List Nat :=
  [0] ++ ntlmssp_sig ++ [3, 0, 0, 0] ++ List.replicate 16 0
    ++ [1, 0] ++ [0, 0] ++ [40, 0, 0, 0] ++ List.replicate 4 0 ++ [0xff]

/-- The shifted scenario truncated to 170 bytes: the Type 3 message's
declared NTLM response range (offsets 165..191) extends past the end. -/
def truncBuf : List Nat := specBufShifted.take 170

/-- The record the truncated scenario actually produces: a 5-byte proof
read (clamped at the buffer end) and an empty response remainder. -/
def truncRecord : String := "bob::WS1:0102030405060708:aaaaaaaaaa:"

/-- A Type 3 message at offset 1 whose NTLM response declares length 5 at
offset 60, with 16 bytes `CC` present at the referenced position. -/
def shortNtlmBuf : List Nat :=
  [0] ++ ntlmssp_sig ++ [3, 0, 0, 0] ++ List.replicate 8 0
    ++ [5, 0, 5, 0, 60, 0, 0, 0] ++ List.replicate 32 0 ++ List.replicate 16 0xcc

/-- A Type 3 message at offset 1 with every descriptor zero, so the declared
NTLM response length is 0 (a NULL session). -/
def nullSessionBuf : List Nat :=
  [0] ++ ntlmssp_sig ++ [3, 0, 0, 0] ++ List.replicate 40 0

/-! ### Helper lemmas about the Python primitives -/

/-- Clamping a nonnegative index. -/
lemma pyClamp_natCast (n m : Nat) : pyClamp n (m : Int) = min m n := by
  unfold pyClamp
  rw [if_neg (by omega)]
  simp

/-- On nonnegative indices the Python slice is plain `drop`-then-`take`. -/
lemma pySliceI_coe (buf : List Nat) (a b : Nat) :
    pySliceI buf (a : Int) (b : Int) = (buf.drop a).take (b - a) := by
  unfold pySliceI
  rw [pyClamp_natCast, pyClamp_natCast]
  rcases le_or_lt a buf.length with ha | ha
  · rw [min_eq_left ha]
    rcases le_or_lt b buf.length with hb | hb
    · rw [min_eq_left hb]
    · rw [min_eq_right hb.le, List.take_of_length_le (by rw [List.length_drop]),
        List.take_of_length_le (by rw [List.length_drop]; omega)]
  · have h2 : buf.drop a = [] := List.drop_eq_nil_of_le ha.le
    have h3 : min a buf.length = buf.length := min_eq_right ha.le
    rw [h3, h2, List.drop_length, List.take_nil, List.take_nil]

/-- A slice whose argument shape is `[a, a+k)` on nonnegative indices. -/
lemma pySliceI_range (buf : List Nat) (a k : Nat) :
    pySliceI buf (a : Int) ((a : Int) + (k : Int)) = (buf.drop a).take k := by
  rw [show ((a : Int) + (k : Int)) = ((a + k : Nat) : Int) by push_cast; ring,
    pySliceI_coe]
  congr 1
  omega

/-- An in-bounds slice of shape `[a, a+k)` has exactly `k` elements. -/
lemma pySliceI_range_length (buf : List Nat) (a k : Nat) (h : a + k ≤ buf.length) :
    (pySliceI buf (a : Int) ((a : Int) + (k : Int))).length = k := by
  rw [pySliceI_range, List.length_take, List.length_drop]
  omega

/-- Every Python slice reads only bytes of the buffer. -/
lemma pySliceI_sublist (buf : List Nat) (a b : Int) : (pySliceI buf a b).Sublist buf :=
  (List.take_sublist _ _).trans (List.drop_sublist _ _)

/-- `pyFindI` yields -1 or a nonnegative found index. -/
lemma pyFindI_cases (buf needle : List Nat) (a b : Int) :
    pyFindI buf needle a b = -1 ∨ ∃ k : Nat, pyFindI buf needle a b = (k : Int) := by
  unfold pyFindI
  rcases (List.range' (pyClamp buf.length a)
      (pyClamp buf.length b + 1 - pyClamp buf.length a)).find?
      (fun i => decide (i + needle.length ≤ pyClamp buf.length b) && matchAt buf needle i) with
    _ | k
  · exact .inl rfl
  · exact .inr ⟨k, rfl⟩

/-- The loop's next offset is -1 or a nonnegative index. -/
lemma nextOffset_cases (buf : List Nat) (off : Int) :
    nextOffset buf off = -1 ∨ ∃ k : Nat, nextOffset buf off = (k : Int) := by
  unfold nextOffset
  exact pyFindI_cases ..

/-- A successful 12-byte message-type check at a nonnegative offset means the
needle is entirely in bounds and matches at exactly that offset. -/
lemma isTypeAt_nat_elim (buf needle : List Nat) (h12 : needle.length = 12) (o : Nat)
    (h : isTypeAt buf needle (o : Int) = true) :
    o + 12 ≤ buf.length ∧ matchAt buf needle o = true := by
  unfold isTypeAt at h
  rw [decide_eq_true_eq] at h
  unfold pyFindI at h
  rcases hf : (List.range' (pyClamp buf.length (o : Int))
      (pyClamp buf.length ((o : Int) + (needle.length : Int)) + 1
        - pyClamp buf.length (o : Int))).find?
      (fun i => decide (i + needle.length ≤ pyClamp buf.length ((o : Int) + (needle.length : Int)))
        && matchAt buf needle i) with _ | i
  · rw [hf] at h
    simp [optToFind] at h
  · have hp := List.find?_some hf
    have hm := List.mem_of_find?_eq_some hf
    rw [List.mem_range'_1] at hm
    rw [Bool.and_eq_true, decide_eq_true_eq] at hp
    have e1 : pyClamp buf.length ((o : Int) + (needle.length : Int))
        = min (o + needle.length) buf.length := by
      rw [show ((o : Int) + (needle.length : Int)) = ((o + needle.length : Nat) : Int) by
        push_cast; ring, pyClamp_natCast]
    have e2 : pyClamp buf.length (o : Int) = min o buf.length := pyClamp_natCast _ _
    rw [e1, h12] at hp
    rw [e1, e2] at hm
    have hio : i = o ∧ o + 12 ≤ buf.length := by
      rcases hp with ⟨hlen, _⟩
      rcases hm with ⟨hge, _⟩
      omega
    exact ⟨hio.2, hio.1 ▸ hp.2⟩

/-- A 12-byte message-type check at offset -1 (the "no further signature"
sentinel) never succeeds. -/
lemma isTypeAt_neg_one (buf needle : List Nat) (h12 : needle.length = 12) :
    isTypeAt buf needle (-1) = false := by
  unfold isTypeAt
  rw [decide_eq_false_iff_not]
  intro h
  unfold pyFindI at h
  rcases hf : (List.range' (pyClamp buf.length (-1))
      (pyClamp buf.length (-1 + (needle.length : Int)) + 1 - pyClamp buf.length (-1))).find?
      (fun i => decide (i + needle.length ≤ pyClamp buf.length (-1 + (needle.length : Int)))
        && matchAt buf needle i) with _ | i
  · rw [hf] at h
    simp [optToFind] at h
  · have hp := List.find?_some hf
    rw [Bool.and_eq_true, decide_eq_true_eq] at hp
    have hx : (-1 : Int) + (needle.length : Int) = 11 := by
      rw [h12]
      decide
    have he : pyClamp buf.length 11 ≤ 11 := by
      unfold pyClamp
      rw [if_neg (by norm_num)]
      exact le_trans (min_le_left _ _) (by simp)
    rw [hx, h12] at hp
    omega

/-- A Type 2 check and a Type 3 check cannot both succeed at one offset. -/
lemma not_type3_of_type2 (buf : List Nat) (o : Nat)
    (h2 : isTypeAt buf ntlmssp_type_2 (o : Int) = true) :
    isTypeAt buf ntlmssp_type_3 (o : Int) = false := by
  rcases hb : isTypeAt buf ntlmssp_type_3 (o : Int) with _ | _
  · rfl
  · exfalso
    have m2 := (isTypeAt_nat_elim buf ntlmssp_type_2 (by decide) o h2).2
    have m3 := (isTypeAt_nat_elim buf ntlmssp_type_3 (by decide) o hb).2
    unfold matchAt at m2 m3
    rw [beq_iff_eq] at m2 m3
    rw [show ntlmssp_type_2.length = ntlmssp_type_3.length from by decide] at m2
    rw [m2] at m3
    exact absurd m3 (by decide)

/-! ### Behavior of the Type 3 block and the loop -/

/-- With no pending challenge the Type 3 block emits nothing (it may still
crash on a diagnostic decode, having printed nothing). -/
lemma type3Step_chNone (buf : List Nat) (q : Bool) (ofile : String) (off : Int) :
    type3Step buf q ofile off none = .ok ([], []) ∨
      ∃ e, type3Step buf q ofile off none = .error (e, []) := by
  unfold type3Step
  rcases tryPrintDecode q (domainBytes buf off) with _ | e
  · rcases tryPrintDecode q (usernameBytes buf off) with _ | e
    · rcases tryPrintDecode q (workstationBytes buf off) with _ | e
      · exact .inl rfl
      · exact .inr ⟨e, rfl⟩
    · exact .inr ⟨e, rfl⟩
  · exact .inr ⟨e, rfl⟩

/-- With a declared NTLM response length of 0 the Type 3 block emits nothing,
whatever the pending challenge (again possibly crashing with nothing printed). -/
lemma type3Step_nl0 (buf : List Nat) (q : Bool) (ofile : String) (off : Int)
    (ch : Option (List Nat)) (hnl : ntlm_length buf off = 0) :
    type3Step buf q ofile off ch = .ok ([], []) ∨
      ∃ e, type3Step buf q ofile off ch = .error (e, []) := by
  unfold type3Step
  rcases tryPrintDecode q (domainBytes buf off) with _ | e
  · rcases tryPrintDecode q (usernameBytes buf off) with _ | e
    · rcases tryPrintDecode q (workstationBytes buf off) with _ | e
      · rcases ch with _ | c
        · exact .inl rfl
        · exact .inl (show assembleHash buf ofile off c = .ok ([], []) from by
            unfold assembleHash
            rw [if_pos hnl])
      · exact .inr ⟨e, rfl⟩
    · exact .inr ⟨e, rfl⟩
  · exact .inr ⟨e, rfl⟩

/-- When the signature matches at offset 0 and the occurrence there is not a
Type 3 message, one loop iteration leaves the offset at 0 (the advance is
guarded by `offset != 0`) and prints nothing new. -/
lemma scanStep_stuck (buf : List Nat) (q : Bool) (ofile : String) (st : ScanState)
    (hoff : st.offset = 0)
    (hfind : pyFindI buf ntlmssp_sig 0 (buf.length : Int) = 0)
    (ht3 : isTypeAt buf ntlmssp_type_3 0 = false) :
    scanStep buf q ofile st = .ok ⟨0, chAfterT2 buf st,
      st.occs ++ [0], st.records, st.outlines⟩ := by
  have hnext : nextOffset buf st.offset = 0 := by
    rw [hoff]
    unfold nextOffset
    rw [if_neg (by norm_num)]
    exact hfind
  unfold scanStep
  rw [hnext, ht3]
  rw [if_neg (show ¬(false = true) from by decide)]
  unfold occsAfter
  rw [hnext, if_neg (show ¬((0 : Int) = -1) from by norm_num)]

/-- From any state with offset 0, on a buffer whose signature matches at
offset 0 with no Type 3 there, the loop never finishes: every fuel bound is
exhausted with nothing printed or written beyond what the state held. -/
lemma scanAux_stuck (buf : List Nat) (q : Bool) (ofile : String)
    (hfind : pyFindI buf ntlmssp_sig 0 (buf.length : Int) = 0)
    (ht3 : isTypeAt buf ntlmssp_type_3 0 = false) :
    ∀ (n : Nat) (st : ScanState), st.offset = 0 →
      ∃ s, scanAux buf q ofile n st = .outOfFuel s ∧
        s.records = st.records ∧ s.outlines = st.outlines := by
  intro n
  induction n with
  | zero =>
    intro st h
    exact ⟨st, rfl, rfl, rfl⟩
  | succ n ih =>
    intro st h
    have hstep := scanStep_stuck buf q ofile st h hfind ht3
    obtain ⟨s, hs, hr, hl⟩ := ih ⟨0, chAfterT2 buf st,
      st.occs ++ [0], st.records, st.outlines⟩ rfl
    refine ⟨s, ?_, hr, hl⟩
    unfold scanAux
    rw [if_neg (by rw [h]; norm_num), hstep]
    exact hs

/-! ### Claim theorems -/

set_option maxRecDepth 100000
set_option maxHeartbeats 2000000

/-- C1 (counterexample): on the specification's own concrete buffer — the
Type 2 message at offset 0, the referencing Type 3 at offset 100 — no fuel
bound completes the scan pass (the loop re-finds offset 0 forever), so no
completed pass emits the expected single record. -/
theorem spec_scenario_at_zero_never_completes :
    (∃ (n : Nat) (s : ScanState), scanRun specBuf false "" n = Outcome.done s ∧
      s.records = [specRecord]) = False := by
  apply eq_false
  rintro ⟨n, s, hd, _⟩
  obtain ⟨s2, h2, _, _⟩ :=
    scanAux_stuck specBuf false "" (by decide) (by decide) n initState rfl
  rw [show scanRun specBuf false "" n = scanAux specBuf false "" n initState from rfl,
    h2] at hd
  exact Outcome.noConfusion hd

/-- C1 (amended): with the same Type 2/Type 3 pair one byte later (Type 2 at
offset 1, Type 3 at offset 101), one full scan pass completes and emits
exactly the record `bob::WS1:0102030405060708:<32 hex a>:<20 hex b>`, whose
server-challenge segment is the hex encoding of the 8 bytes at the Type 2
message's offset + 24. -/
theorem spec_scenario_shifted_emits_one_record :
    scanRun specBufShifted false "" 4 =
      Outcome.done ⟨-1, none, [1, 101], [specRecord], []⟩ ∧
    hexStr (pySliceI specBufShifted (1 + 24) (1 + 32)) = "0102030405060708" := by
  exact ⟨rfl, rfl⟩

/-- C2: a Type 3 occurrence whose domain field bytes are `[0xFF]` (not valid
UTF-8) makes the strict `decode('UTF-8')` raise `UnicodeDecodeError`, which
aborts the whole scan instead of degrading to replacement text. -/
theorem invalid_utf8_domain_crashes_scan :
    scanRun badDomainBuf false "" 2 =
      Outcome.crashed PyErr.unicodeDecodeError ⟨1, none, [1], [], []⟩ := by
  exact rfl

/-- C3: on a buffer that is exactly the 8-byte NTLMSSP signature (an
occurrence at offset 0), the scan pass never terminates: every fuel bound is
exhausted with the loop still running at offset 0. -/
theorem scan_never_terminates_sig_at_zero :
    ∀ n : Nat, ∃ s, scanRun ntlmssp_sig false "" n = Outcome.outOfFuel s := by
  intro n
  obtain ⟨s, hs, _, _⟩ :=
    scanAux_stuck ntlmssp_sig false "" (by decide) (by decide) n initState rfl
  exact ⟨s, hs⟩

/-- C3 (witness): the non-termination theorem applied at fuel 7. -/
theorem scan_never_terminates_sig_at_zero_witness :
    ∃ s, scanRun ntlmssp_sig false "" 7 = Outcome.outOfFuel s :=
  scan_never_terminates_sig_at_zero 7

/-- C4: on a 12-byte buffer that is exactly a Type 1 message at offset 0, two
loop iterations report the occurrence offsets `[0, 0]` — the search position
is not advanced past an occurrence at offset 0 — so the produced occurrence
offsets are not strictly increasing. -/
theorem occurrence_offsets_repeat_at_zero :
    scanRun ntlmssp_type_1 false "" 2 =
      Outcome.outOfFuel ⟨0, none, [0, 0], [], []⟩ ∧
    ¬ List.Pairwise (fun a b : Int => a < b)
      (ScanState.occs ⟨0, none, [0, 0], [], []⟩) := by
  exact ⟨rfl, by decide⟩

/-- C5: with an output file configured, a zero-domain-length hash-producing
Type 3 occurrence crashes the scan with `NameError` (the undefined variable
`output` at the `writeOutfile` call) after printing the record to standard
output and appending nothing, while a nonzero-domain-length occurrence
appends the record to the output file correctly. -/
theorem outfile_zero_domain_name_error :
    scanRun specBufShifted false "out.txt" 3 =
      Outcome.crashed PyErr.nameError
        ⟨101, some [1, 2, 3, 4, 5, 6, 7, 8], [1, 101], [specRecord], []⟩ ∧
    scanRun domainBuf false "out.txt" 4 =
      Outcome.done ⟨-1, none, [1, 101], [domainRecord], [domainRecord ++ "\n"]⟩ := by
  exact ⟨rfl, rfl⟩

/-- A Python slice at casted Nat endpoints, stated for rewriting. -/
lemma pySliceI_eq_drop_take (buf : List Nat) (a b : Int) (a2 b2 : Nat)
    (ha : a = (a2 : Int)) (hb : b = (b2 : Int)) :
    pySliceI buf a b = (buf.drop a2).take (b2 - a2) := by
  rw [ha, hb]
  exact pySliceI_coe ..

/-- C7: the four variable-length fields of a Type 3 message are decoded via
descriptors at fixed message-relative positions — NTLM response at +20,
domain at +28, username at +36, workstation at +44 — each a 2-byte
little-endian length, 2 skipped bytes, and a 4-byte little-endian offset
relative to the message start; the bytes read for each field are exactly the
range `[start + field_offset, start + field_offset + field_length)` (of
exactly `field_length` bytes when in bounds), and the NTLM response blob is
split into its first 16 bytes (the NT proof) and the remaining
`length - 16` bytes (the NTLMv2 response). -/
theorem type3_field_descriptors :
    ∀ (buf : List Nat) (o : Nat),
      domain_length buf (o : Int) = decode_int ((buf.drop (o + 28)).take 2) ∧
      domain_offset buf (o : Int) = decode_int ((buf.drop (o + 32)).take 4) ∧
      username_length buf (o : Int) = decode_int ((buf.drop (o + 36)).take 2) ∧
      username_offset buf (o : Int) = decode_int ((buf.drop (o + 40)).take 4) ∧
      workstation_length buf (o : Int) = decode_int ((buf.drop (o + 44)).take 2) ∧
      workstation_offset buf (o : Int) = decode_int ((buf.drop (o + 48)).take 4) ∧
      ntlm_length buf (o : Int) = decode_int ((buf.drop (o + 20)).take 2) ∧
      ntlm_offset buf (o : Int) = decode_int ((buf.drop (o + 24)).take 4) ∧
      domainBytes buf (o : Int)
        = (buf.drop (o + domain_offset buf (o : Int))).take (domain_length buf (o : Int)) ∧
      usernameBytes buf (o : Int)
        = (buf.drop (o + username_offset buf (o : Int))).take (username_length buf (o : Int)) ∧
      workstationBytes buf (o : Int)
        = (buf.drop (o + workstation_offset buf (o : Int))).take (workstation_length buf (o : Int)) ∧
      (o + domain_offset buf (o : Int) + domain_length buf (o : Int) ≤ buf.length →
        (domainBytes buf (o : Int)).length = domain_length buf (o : Int)) ∧
      (o + username_offset buf (o : Int) + username_length buf (o : Int) ≤ buf.length →
        (usernameBytes buf (o : Int)).length = username_length buf (o : Int)) ∧
      (o + workstation_offset buf (o : Int) + workstation_length buf (o : Int) ≤ buf.length →
        (workstationBytes buf (o : Int)).length = workstation_length buf (o : Int)) ∧
      ntproofstr buf (o : Int) = (buf.drop (o + ntlm_offset buf (o : Int))).take 16 ∧
      ntlmv2_response buf (o : Int)
        = (buf.drop (o + ntlm_offset buf (o : Int) + 16)).take (ntlm_length buf (o : Int) - 16) := by
  intro buf o
  have hdl : domain_length buf (o : Int) = decode_int ((buf.drop (o + 28)).take 2) := by
    unfold domain_length
    rw [pySliceI_eq_drop_take buf _ _ (o + 28) (o + 30) (by push_cast; ring) (by push_cast; ring),
      show o + 30 - (o + 28) = 2 from by omega]
  have hdo : domain_offset buf (o : Int) = decode_int ((buf.drop (o + 32)).take 4) := by
    unfold domain_offset
    rw [pySliceI_eq_drop_take buf _ _ (o + 32) (o + 36) (by push_cast; ring) (by push_cast; ring),
      show o + 36 - (o + 32) = 4 from by omega]
  have hul : username_length buf (o : Int) = decode_int ((buf.drop (o + 36)).take 2) := by
    unfold username_length
    rw [pySliceI_eq_drop_take buf _ _ (o + 36) (o + 38) (by push_cast; ring) (by push_cast; ring),
      show o + 38 - (o + 36) = 2 from by omega]
  have huo : username_offset buf (o : Int) = decode_int ((buf.drop (o + 40)).take 4) := by
    unfold username_offset
    rw [pySliceI_eq_drop_take buf _ _ (o + 40) (o + 44) (by push_cast; ring) (by push_cast; ring),
      show o + 44 - (o + 40) = 4 from by omega]
  have hwl : workstation_length buf (o : Int) = decode_int ((buf.drop (o + 44)).take 2) := by
    unfold workstation_length
    rw [pySliceI_eq_drop_take buf _ _ (o + 44) (o + 46) (by push_cast; ring) (by push_cast; ring),
      show o + 46 - (o + 44) = 2 from by omega]
  have hwo : workstation_offset buf (o : Int) = decode_int ((buf.drop (o + 48)).take 4) := by
    unfold workstation_offset
    rw [pySliceI_eq_drop_take buf _ _ (o + 48) (o + 52) (by push_cast; ring) (by push_cast; ring),
      show o + 52 - (o + 48) = 4 from by omega]
  have hnl : ntlm_length buf (o : Int) = decode_int ((buf.drop (o + 20)).take 2) := by
    unfold ntlm_length
    rw [pySliceI_eq_drop_take buf _ _ (o + 20) (o + 22) (by push_cast; ring) (by push_cast; ring),
      show o + 22 - (o + 20) = 2 from by omega]
  have hno : ntlm_offset buf (o : Int) = decode_int ((buf.drop (o + 24)).take 4) := by
    unfold ntlm_offset
    rw [pySliceI_eq_drop_take buf _ _ (o + 24) (o + 28) (by push_cast; ring) (by push_cast; ring),
      show o + 28 - (o + 24) = 4 from by omega]
  have hdb : domainBytes buf (o : Int)
      = (buf.drop (o + domain_offset buf (o : Int))).take (domain_length buf (o : Int)) := by
    unfold domainBytes
    rw [pySliceI_eq_drop_take buf _ _ (o + domain_offset buf (o : Int))
        (o + domain_offset buf (o : Int) + domain_length buf (o : Int))
        (by push_cast; ring) (by push_cast; ring)]
    congr 1
    omega
  have hub : usernameBytes buf (o : Int)
      = (buf.drop (o + username_offset buf (o : Int))).take (username_length buf (o : Int)) := by
    unfold usernameBytes
    rw [pySliceI_eq_drop_take buf _ _ (o + username_offset buf (o : Int))
        (o + username_offset buf (o : Int) + username_length buf (o : Int))
        (by push_cast; ring) (by push_cast; ring)]
    congr 1
    omega
  have hwb : workstationBytes buf (o : Int)
      = (buf.drop (o + workstation_offset buf (o : Int))).take (workstation_length buf (o : Int)) := by
    unfold workstationBytes
    rw [pySliceI_eq_drop_take buf _ _ (o + workstation_offset buf (o : Int))
        (o + workstation_offset buf (o : Int) + workstation_length buf (o : Int))
        (by push_cast; ring) (by push_cast; ring)]
    congr 1
    omega
  have hps : ntproofstr buf (o : Int) = (buf.drop (o + ntlm_offset buf (o : Int))).take 16 := by
    unfold ntproofstr
    rw [pySliceI_eq_drop_take buf _ _ (o + ntlm_offset buf (o : Int))
        (o + ntlm_offset buf (o : Int) + 16) (by push_cast; ring) (by push_cast; ring)]
    congr 1
    omega
  have hrs : ntlmv2_response buf (o : Int)
      = (buf.drop (o + ntlm_offset buf (o : Int) + 16)).take (ntlm_length buf (o : Int) - 16) := by
    unfold ntlmv2_response
    rw [pySliceI_eq_drop_take buf _ _ (o + ntlm_offset buf (o : Int) + 16)
        (o + ntlm_offset buf (o : Int) + ntlm_length buf (o : Int))
        (by push_cast; ring) (by push_cast; ring)]
    rw [show o + ntlm_offset buf (o : Int) + ntlm_length buf (o : Int)
        - (o + ntlm_offset buf (o : Int) + 16) = ntlm_length buf (o : Int) - 16 from by omega]
  refine ⟨hdl, hdo, hul, huo, hwl, hwo, hnl, hno, hdb, hub, hwb, ?_, ?_, ?_, hps, hrs⟩
  · intro h
    rw [hdb, List.length_take, List.length_drop]
    omega
  · intro h
    rw [hub, List.length_take, List.length_drop]
    omega
  · intro h
    rw [hwb, List.length_take, List.length_drop]
    omega

/-- C7 (witness): the descriptor theorem at the shifted scenario buffer's
Type 3 occurrence (offset 101), with the in-bounds implications discharged. -/
theorem type3_field_descriptors_witness :
    (usernameBytes specBufShifted ((101 : Nat) : Int)).length
        = username_length specBufShifted ((101 : Nat) : Int) ∧
      ntproofstr specBufShifted ((101 : Nat) : Int)
        = (specBufShifted.drop (101 + ntlm_offset specBufShifted ((101 : Nat) : Int))).take 16 :=
  ⟨(type3_field_descriptors specBufShifted 101).2.2.2.2.2.2.2.2.2.2.2.2.1 (by decide),
    (type3_field_descriptors specBufShifted 101).2.2.2.2.2.2.2.2.2.2.2.2.2.2.1⟩

/-- C10: whenever the 16 bytes at `start + ntlm_offset` lie inside the buffer
and the declared NTLM response length is nonzero, the extracted NT proof is
exactly those 16 bytes — the read ignores the declared length, also when it
is under 16 — and in the under-16 case the NTLMv2 response remainder is
empty. -/
theorem ntproofstr_ignores_declared_length :
    ∀ (buf : List Nat) (o : Nat),
      o + ntlm_offset buf (o : Int) + 16 ≤ buf.length →
      0 < ntlm_length buf (o : Int) →
      ntproofstr buf (o : Int) = (buf.drop (o + ntlm_offset buf (o : Int))).take 16 ∧
      (ntproofstr buf (o : Int)).length = 16 ∧
      (ntlm_length buf (o : Int) ≤ 16 → ntlmv2_response buf (o : Int) = []) := by
  intro buf o h16 hpos
  have hps : ntproofstr buf (o : Int) = (buf.drop (o + ntlm_offset buf (o : Int))).take 16 := by
    unfold ntproofstr
    rw [pySliceI_eq_drop_take buf _ _ (o + ntlm_offset buf (o : Int))
        (o + ntlm_offset buf (o : Int) + 16) (by push_cast; ring) (by push_cast; ring)]
    congr 1
    omega
  refine ⟨hps, ?_, ?_⟩
  · rw [hps, List.length_take, List.length_drop]
    omega
  · intro hle
    unfold ntlmv2_response
    rw [pySliceI_eq_drop_take buf _ _ (o + ntlm_offset buf (o : Int) + 16)
        (o + ntlm_offset buf (o : Int) + ntlm_length buf (o : Int))
        (by push_cast; ring) (by push_cast; ring),
      show o + ntlm_offset buf (o : Int) + ntlm_length buf (o : Int)
          - (o + ntlm_offset buf (o : Int) + 16) = 0 from by omega]
    rfl

/-- C10 (witness): the proof-read theorem at a buffer whose Type 3 message
declares response length 5 (under 16) at offset 60: the NT proof is still
the full 16 bytes there and the response remainder is empty. -/
theorem ntproofstr_ignores_declared_length_witness :
    ntproofstr shortNtlmBuf ((1 : Nat) : Int)
        = (shortNtlmBuf.drop (1 + ntlm_offset shortNtlmBuf ((1 : Nat) : Int))).take 16 ∧
      (ntproofstr shortNtlmBuf ((1 : Nat) : Int)).length = 16 ∧
      (ntlm_length shortNtlmBuf ((1 : Nat) : Int) ≤ 16 →
        ntlmv2_response shortNtlmBuf ((1 : Nat) : Int) = []) :=
  ntproofstr_ignores_declared_length shortNtlmBuf 1 (by decide) (by decide)

/-- C9 (counterexample): on the truncated buffer the Type 3 occurrence at
offset 101 declares an NTLM response range that extends past the buffer end,
yet the scan still emits a hash record for it (built from the clamped,
truncated bytes) — it is not the case that such an occurrence yields no
hash. -/
theorem truncated_response_still_emits_hash :
    scanRun truncBuf false "" 4 = Outcome.done ⟨-1, none, [1, 101], [truncRecord], []⟩ ∧
    (truncBuf.length : Int)
      < 101 + (ntlm_offset truncBuf 101 : Int) + (ntlm_length truncBuf 101 : Int) := by
  exact ⟨rfl, by decide⟩

/-- C9 (amended): a field read reaching past the buffer end is clamped — every
slice reads only bytes of the buffer, so there is no out-of-bounds access and
no fatal error, and the scan continues past the occurrence and terminates —
but the affected occurrence still yields a hash built from the truncated
(possibly empty) bytes: here the NT proof read returns only the 5 bytes that
exist. -/
theorem truncated_reads_clamped_scan_continues :
    (∀ a b : Int, (pySliceI truncBuf a b).Sublist truncBuf) ∧
    (ntproofstr truncBuf 101).length = 5 ∧
    scanRun truncBuf false "" 4 = Outcome.done ⟨-1, none, [1, 101], [truncRecord], []⟩ := by
  exact ⟨fun a b => pySliceI_sublist truncBuf a b, by decide, rfl⟩

/-- C6: the pending-challenge state machine of one loop iteration: a Type 2
occurrence at the found offset sets the pending challenge to the 8 bytes at
that offset + 24, unconditionally overwriting any prior value; after a
normally-processed Type 3 occurrence the pending challenge is always `none`
(whether or not a hash was emitted); and a Type 3 occurrence with no pending
challenge emits no hash line and appends nothing to the output file. -/
theorem challenge_state_machine :
    ∀ (buf : List Nat) (q : Bool) (ofile : String) (st : ScanState),
      (isTypeAt buf ntlmssp_type_2 (nextOffset buf st.offset) = true →
        ∃ s2, scanStep buf q ofile st = Except.ok s2 ∧
          s2.server_challenge = some (pySliceI buf (nextOffset buf st.offset + 24)
            (nextOffset buf st.offset + 32))) ∧
      (isTypeAt buf ntlmssp_type_3 (nextOffset buf st.offset) = true →
        ∀ s3, scanStep buf q ofile st = Except.ok s3 → s3.server_challenge = none) ∧
      (isTypeAt buf ntlmssp_type_3 (nextOffset buf st.offset) = true →
        st.server_challenge = none →
        (stateOf (scanStep buf q ofile st)).records = st.records ∧
        (stateOf (scanStep buf q ofile st)).outlines = st.outlines) := by
  intro buf q ofile st
  refine ⟨?_, ?_, ?_⟩
  · intro h2
    have ht3 : isTypeAt buf ntlmssp_type_3 (nextOffset buf st.offset) = false := by
      rcases nextOffset_cases buf st.offset with hn | ⟨k, hk⟩
      · rw [hn] at h2
        rw [isTypeAt_neg_one buf ntlmssp_type_2 (by decide)] at h2
        exact absurd h2 (by decide)
      · rw [hk] at h2 ⊢
        exact not_type3_of_type2 buf k h2
    refine ⟨⟨nextOffset buf st.offset, chAfterT2 buf st, occsAfter buf st,
      st.records, st.outlines⟩, ?_, ?_⟩
    · unfold scanStep
      rw [ht3, if_neg (show ¬(false = true) from by decide)]
    · show chAfterT2 buf st = _
      unfold chAfterT2
      rw [if_pos h2]
  · intro h3 s3 hok
    unfold scanStep at hok
    rw [h3, if_pos rfl] at hok
    rcases htt : type3Step buf q ofile (nextOffset buf st.offset) (chAfterT2 buf st) with
      ⟨e, printed⟩ | ⟨recs, outs⟩
    · rw [htt] at hok
      exact Except.noConfusion hok
    · rw [htt] at hok
      injection hok with hs
      rw [← hs]
  · intro h3 hch
    have ht2 : isTypeAt buf ntlmssp_type_2 (nextOffset buf st.offset) = false := by
      rcases nextOffset_cases buf st.offset with hn | ⟨k, hk⟩
      · rw [hn, isTypeAt_neg_one buf ntlmssp_type_3 (by decide)] at h3
        exact absurd h3 (by decide)
      · rw [hk] at h3 ⊢
        rcases hb : isTypeAt buf ntlmssp_type_2 (k : Int) with _ | _
        · rfl
        · rw [not_type3_of_type2 buf k hb] at h3
          exact absurd h3 (by decide)
    have hchA : chAfterT2 buf st = none := by
      unfold chAfterT2
      rw [ht2, if_neg (show ¬(false = true) from by decide)]
      exact hch
    unfold scanStep
    rw [h3, if_pos rfl, hchA]
    rcases type3Step_chNone buf q ofile (nextOffset buf st.offset) with hh | ⟨e, hh⟩
    · rw [hh]
      exact ⟨by simp [stateOf], by simp [stateOf]⟩
    · rw [hh]
      exact ⟨by simp [stateOf], by simp [stateOf]⟩

/-- C8: a Type 3 occurrence whose declared NTLM response length is 0 emits
no hash record, whatever the pending-challenge state; and every emitted hash
record carries the domain segment with its trailing backslash exactly when
the decoded domain length is nonzero (`USERNAME::WORKSTATION:...` for domain
length 0, `DOMAIN\USERNAME::WORKSTATION:...` otherwise). -/
theorem null_session_and_domain_format :
    (∀ (buf : List Nat) (q : Bool) (ofile : String) (st : ScanState),
      isTypeAt buf ntlmssp_type_3 (nextOffset buf st.offset) = true →
      ntlm_length buf (nextOffset buf st.offset) = 0 →
      (stateOf (scanStep buf q ofile st)).records = st.records ∧
      (stateOf (scanStep buf q ofile st)).outlines = st.outlines) ∧
    (∀ (buf : List Nat) (q : Bool) (ofile : String) (off : Int) (ch : Option (List Nat))
        (recs outs : List String),
      type3Step buf q ofile off ch = .ok (recs, outs) →
      recs = [] ∨
        ∃ c u w, ch = some c ∧
          decode_string (usernameBytes buf off) = .ok u ∧
          decode_string (workstationBytes buf off) = .ok w ∧
          ((domain_length buf off = 0 ∧
            recs = [u ++ "::" ++ w ++ ":" ++ hexStr c ++ ":" ++ hexStr (ntproofstr buf off)
              ++ ":" ++ hexStr (ntlmv2_response buf off)]) ∨
           (domain_length buf off ≠ 0 ∧ ∃ d, decode_string (domainBytes buf off) = .ok d ∧
            recs = [d ++ "\\" ++ u ++ "::" ++ w ++ ":" ++ hexStr c ++ ":"
              ++ hexStr (ntproofstr buf off) ++ ":" ++ hexStr (ntlmv2_response buf off)]))) := by
  constructor
  · intro buf q ofile st h3 hnl
    unfold scanStep
    rw [h3, if_pos rfl]
    rcases type3Step_nl0 buf q ofile (nextOffset buf st.offset) (chAfterT2 buf st) hnl with
      hh | ⟨e, hh⟩
    · rw [hh]
      exact ⟨by simp [stateOf], by simp [stateOf]⟩
    · rw [hh]
      exact ⟨by simp [stateOf], by simp [stateOf]⟩
  · intro buf q ofile off ch recs outs hok
    unfold type3Step at hok
    rcases hd : tryPrintDecode q (domainBytes buf off) with _ | e
    · rw [hd] at hok
      rcases hu1 : tryPrintDecode q (usernameBytes buf off) with _ | e
      · rw [hu1] at hok
        rcases hw1 : tryPrintDecode q (workstationBytes buf off) with _ | e
        · rw [hw1] at hok
          rcases ch with _ | c
          · left
            injection hok with hp
            injection hp with h1 h2
            exact h1.symm
          · have hok2 : assembleHash buf ofile off c = Except.ok (recs, outs) := hok
            unfold assembleHash at hok2
            by_cases hnl : ntlm_length buf off = 0
            · rw [if_pos hnl] at hok2
              left
              injection hok2 with hp
              injection hp with h1 h2
              exact h1.symm
            · rw [if_neg hnl] at hok2
              by_cases hdl : domain_length buf off = 0
              · rw [if_pos hdl] at hok2
                rcases hu : decode_string (usernameBytes buf off) with e | u
                · rw [hu] at hok2
                  exact Except.noConfusion hok2
                · rw [hu] at hok2
                  rcases hw : decode_string (workstationBytes buf off) with e | w
                  · rw [hw] at hok2
                    exact Except.noConfusion hok2
                  · rw [hw] at hok2
                    have hok3 : emitNoDomain ofile (hash_out_nodomain buf off c u w)
                        = Except.ok (recs, outs) := hok2
                    unfold emitNoDomain at hok3
                    by_cases hof : ofile ≠ ""
                    · rw [if_pos hof] at hok3
                      exact Except.noConfusion hok3
                    · rw [if_neg hof] at hok3
                      injection hok3 with hp
                      injection hp with h1 h2
                      exact .inr ⟨c, u, w, rfl, rfl, rfl, .inl ⟨hdl, h1.symm⟩⟩
              · rw [if_neg hdl] at hok2
                rcases hdd : decode_string (domainBytes buf off) with e | d
                · rw [hdd] at hok2
                  exact Except.noConfusion hok2
                · rw [hdd] at hok2
                  rcases hu : decode_string (usernameBytes buf off) with e | u
                  · rw [hu] at hok2
                    exact Except.noConfusion hok2
                  · rw [hu] at hok2
                    rcases hw : decode_string (workstationBytes buf off) with e | w
                    · rw [hw] at hok2
                      exact Except.noConfusion hok2
                    · rw [hw] at hok2
                      have hok3 : emitDomain ofile (hash_out_domain buf off c d u w)
                          = Except.ok (recs, outs) := hok2
                      unfold emitDomain at hok3
                      by_cases hof : ofile ≠ ""
                      · rw [if_pos hof] at hok3
                        injection hok3 with hp
                        injection hp with h1 h2
                        exact .inr ⟨c, u, w, rfl, rfl, rfl, .inr ⟨hdl, d, rfl, h1.symm⟩⟩
                      · rw [if_neg hof] at hok3
                        injection hok3 with hp
                        injection hp with h1 h2
                        exact .inr ⟨c, u, w, rfl, rfl, rfl, .inr ⟨hdl, d, rfl, h1.symm⟩⟩
        · rw [hw1] at hok
          exact Except.noConfusion hok
      · rw [hu1] at hok
        exact Except.noConfusion hok
    · rw [hd] at hok
      exact Except.noConfusion hok

/-- C6 (witness): the state-machine theorem applied to the shifted scenario
buffer's first iteration, a Type 2 occurrence at offset 1. -/
theorem challenge_state_machine_witness :
    ∃ s2, scanStep specBufShifted false "" initState = Except.ok s2 ∧
      s2.server_challenge = some (pySliceI specBufShifted
        (nextOffset specBufShifted initState.offset + 24)
        (nextOffset specBufShifted initState.offset + 32)) :=
  (challenge_state_machine specBufShifted false "" initState).1 (by decide)

/-- C8 (witness): the NULL-session half applied to a concrete buffer whose
Type 3 occurrence at offset 1 declares NTLM response length 0. -/
theorem null_session_and_domain_format_witness :
    (stateOf (scanStep nullSessionBuf false "" initState)).records = initState.records ∧
      (stateOf (scanStep nullSessionBuf false "" initState)).outlines = initState.outlines :=
  null_session_and_domain_format.1 nullSessionBuf false "" initState (by decide) (by decide)
